import Mathlib

/-!
Verification model of the actor/mailbox concurrency core of this repository
(src/common/actor.rs together with src/common/shared_state.rs).

The shallow embedding represents the contents of the shared cells directly:
all clones of one AsyncRequestResponse channel alias the same three cells
(request slot, response slot, waker slot), so a single record of the three
cell contents models the whole clone family, and mutation through any clone
is mutation of that record.  Wakers are kept opaque as a type parameter; the
act of firing a waker is modelled by reporting which waker (if any) was taken
from its cell.  Stateful operations become pure functions from the old cell
contents to the new cell contents plus their observable result.
-/

namespace ActorSpec

/-- Embeds the AsyncError enum (actor.rs lines 35-39): Abort and Shutdown. -/
inductive AsyncError where
  | abort
  | shutdown
deriving DecidableEq, Repr

/-- Embeds the Result alias (actor.rs line 41): a std Result whose error type
is AsyncError. -/
inductive Result (T : Type) where
  | ok (t : T)
  | err (e : AsyncError)
deriving DecidableEq, Repr

/-- Embeds futures Poll: the result of polling a future or stream. -/
inductive Poll (α : Type) where
  | ready (a : α)
  | pending
deriving DecidableEq, Repr

/-- Embeds the shared-cell contents of one AsyncRequestResponse channel
(actor.rs lines 69-81): a request slot, a response slot and a waker slot.
All clones of one channel alias the same three cells, so one value of this
structure models the entire clone family. -/
structure AsyncRequestResponse (Request Response Wk : Type) where
  request : Option Request
  response : Option (Result Response)
  waker : Option Wk
deriving DecidableEq, Repr

namespace AsyncRequestResponse

variable {Request Response Wk : Type}

/-- Embeds AsyncRequestResponse::new (actor.rs lines 113-125): the channel is
created holding Some(request), no response and no waker. -/
def new (req : Request) : AsyncRequestResponse Request Response Wk :=
  { request := some req, response := none, waker := none }

/-- Embeds AsyncRequestResponse::wake_with_response (actor.rs lines 127-134):
writes Some(response) into the response cell, then takes the waker out of the
waker cell and fires it.  Returns the new cell contents together with the
waker that was fired (none when the waker cell was empty, in which case the
wake path does nothing). -/
def wake_with_response (c : AsyncRequestResponse Request Response Wk)
    (response : Result Response) :
    AsyncRequestResponse Request Response Wk × Option Wk :=
  ({ c with response := some response, waker := none }, c.waker)

/-- Embeds AsyncRequestResponse::take_request (actor.rs lines 136-139):
destructively takes the request cell contents. -/
def take_request (c : AsyncRequestResponse Request Response Wk) :
    Option Request × AsyncRequestResponse Request Response Wk :=
  (c.request, { c with request := none })

/-- Embeds AsyncRequestResponse::take_response (actor.rs lines 141-144):
destructively takes the response cell contents. -/
def take_response (c : AsyncRequestResponse Request Response Wk) :
    Option (Result Response) × AsyncRequestResponse Request Response Wk :=
  (c.response, { c with response := none })

/-- Embeds AsyncRequestResponse::update_waker (actor.rs lines 146-149):
stores the given waker into the waker cell, overwriting any previous one. -/
def update_waker (c : AsyncRequestResponse Request Response Wk) (w : Wk) :
    AsyncRequestResponse Request Response Wk :=
  { c with waker := some w }

/-- Embeds the Future impl poll (actor.rs lines 161-173): take_response, then
if a response was present complete with it; otherwise store the current waker
via update_waker and stay pending. -/
def poll (c : AsyncRequestResponse Request Response Wk) (w : Wk) :
    Poll (Result Response) × AsyncRequestResponse Request Response Wk :=
  let taken := c.take_response
  match taken.1 with
  | some r => (.ready r, taken.2)
  | none => (.pending, taken.2.update_waker w)

end AsyncRequestResponse

/-- Embeds the state shared between one Address family and its Mailbox
(actor.rs lines 182-205 and 307-346): the pending queue of channels (front of
the list is the oldest entry; Address::handle pushes to the back), the
mailbox waker cell and the cancel flag cell.  Address clones and the Mailbox
all alias these cells, so one value of this structure models the family. -/
structure MailboxState (Request Response Wk : Type) where
  pending : List (AsyncRequestResponse Request Response Wk)
  mailbox_waker : Option Wk
  cancel_flag : Bool
deriving DecidableEq, Repr

/-- The shared state created by SingleThreadedActor::start_mailbox_loop
(actor.rs lines 429-446): empty queue, no waker, cancel flag clear. -/
def MailboxState.start : MailboxState Request Response Wk :=
  { pending := [], mailbox_waker := none, cancel_flag := false }

namespace Address

variable {Request Response Wk : Type}

/-- Embeds the enqueue part of Address::handle (actor.rs lines 220-231):
build a fresh channel from the request, clone it, push the clone onto the
back of the pending queue and wake the mailbox (wake_mailbox takes the waker
out of the mailbox waker cell and fires it).  Returns the new shared state
and the channel the caller will await; since all clones alias the same
cells, the queued clone and the returned clone are the same cell family. -/
def handle (s : MailboxState Request Response Wk) (r : Request) :
    MailboxState Request Response Wk × AsyncRequestResponse Request Response Wk :=
  let async_request : AsyncRequestResponse Request Response Wk :=
    AsyncRequestResponse.new r
  ({ s with pending := s.pending ++ [async_request], mailbox_waker := none },
   async_request)

/-- Embeds Address::shutdown (actor.rs lines 233-237): set the cancel flag
and wake the mailbox (taking the waker out of its cell). -/
def shutdown (s : MailboxState Request Response Wk) :
    MailboxState Request Response Wk :=
  { s with cancel_flag := true, mailbox_waker := none }

end Address

namespace Mailbox

variable {Request Response Wk : Type}

/-- Embeds Mailbox::stop_all_pending_with_error (actor.rs lines 364-370):
drain the whole pending queue and call wake_with_response with Err(error) on
every drained channel.  Returns the new shared state (queue empty) together
with the list of resolved channel states, i.e. the cell contents each
awaiting caller now observes through its own clone. -/
def stop_all_pending_with_error (s : MailboxState Request Response Wk)
    (error : AsyncError) :
    MailboxState Request Response Wk ×
      List (AsyncRequestResponse Request Response Wk) :=
  ({ s with pending := [] },
   s.pending.map (fun arr => (arr.wake_with_response (.err error)).1))

/-- Embeds the Drop impl for Mailbox (actor.rs lines 419-422): it calls
stop_all_pending_with_error with Abort, unconditionally (it never reads the
cancel flag). -/
def drop (s : MailboxState Request Response Wk) :
    MailboxState Request Response Wk ×
      List (AsyncRequestResponse Request Response Wk) :=
  stop_all_pending_with_error s .abort

/-- Embeds the Stream impl poll_next for Mailbox (actor.rs lines 391-400).
The source body is an unimplemented stub: its two comments describe an
intended drain-on-cancel and FIFO-pop behaviour, but the only executable
statement is the final expression, which returns Poll::Pending
unconditionally — nothing is drained, popped, resolved or stored. -/
def poll_next (s : MailboxState Request Response Wk) (_w : Wk) :
    Poll (Option (AsyncRequestResponse Request Response Wk)) ×
      MailboxState Request Response Wk :=
  (.pending, s)

end Mailbox

/-- State of the driving task spawned by
SingleThreadedActor::start_mailbox_loop (actor.rs lines 448-458): the shared
mailbox cells, the actor value, whether the while-let loop has exited, a
marker for a failed unwrap, and the log of channel resolutions the loop has
performed (each entry is the cell contents an awaiting caller observes). -/
structure DriverState (A Request Response Wk : Type) where
  mailbox : MailboxState Request Response Wk
  actor : Option A
  finished : Bool
  failed : Bool
  log : List (AsyncRequestResponse Request Response Wk)
deriving DecidableEq, Repr

/-- One scheduler step of the driving task of
SingleThreadedActor::start_mailbox_loop (actor.rs lines 448-458): poll the
Mailbox stream; on Pending suspend; on Ready(None) exit the loop; on
Ready(Some(async_rr)) take the request (unwrap), run the actor handler, and
wake the channel with Ok(response), logging the resolved cell contents.
The handler h is the synchronous Actor::handle, as a pure function from
actor state and request to new actor state and response. -/
def driver_step {A Request Response Wk : Type}
    (h : A → Request → A × Response) (w : Wk)
    (ds : DriverState A Request Response Wk) :
    DriverState A Request Response Wk :=
  if ds.finished then ds else
  match Mailbox.poll_next ds.mailbox w with
  | (.pending, m) => { ds with mailbox := m }
  | (.ready none, m) => { ds with mailbox := m, finished := true }
  | (.ready (some async_rr), m) =>
    match async_rr.take_request with
    | (none, _) => { ds with mailbox := m, failed := true }
    | (some req, taken) =>
      match ds.actor with
      | none => { ds with mailbox := m, failed := true }
      | some a =>
        let step := h a req
        let resolved := (taken.wake_with_response (.ok step.2)).1
        { ds with mailbox := m, actor := some step.1, log := ds.log ++ [resolved] }

/-- Iterates driver_step n times: n scheduler steps of the driving task. -/
def driver_run {A Request Response Wk : Type}
    (h : A → Request → A × Response) (w : Wk) :
    Nat → DriverState A Request Response Wk → DriverState A Request Response Wk
  | 0, ds => ds
  | n + 1, ds => driver_run h w n (driver_step h w ds)

/-- Replaces the element at index i of a list by its image under f; used to
model a caller polling its own clone of the channel sitting at position i of
the shared pending queue (the clone aliases the cells of the queued channel). -/
def modifyAt {α : Type} (f : α → α) : Nat → List α → List α
  | _, [] => []
  | 0, a :: as => f a :: as
  | n + 1, a :: as => a :: modifyAt f n as

/-- The operations of the source that touch the shared Address/Mailbox state:
Address::handle enqueueing (lines 220-231), a caller polling its clone of a
queued channel (lines 161-173), Address::shutdown (lines 233-237), the
driving task polling Mailbox::poll_next (lines 391-400), and the Mailbox
being dropped (lines 419-422).  These are the only call sites in actor.rs
that read or mutate the pending queue or the cancel flag. -/
inductive MailboxOp (Request Wk : Type) where
  | handle (r : Request)
  | callerPoll (i : Nat) (w : Wk)
  | shutdown
  | pollNext (w : Wk)
  | dropMailbox

/-- Applies one MailboxOp to the shared state, using the embedded source
operations. -/
def stepOp {Request Response Wk : Type}
    (s : MailboxState Request Response Wk) :
    MailboxOp Request Wk → MailboxState Request Response Wk
  | .handle r => (Address.handle s r).1
  | .callerPoll i w =>
    { s with pending := modifyAt (fun c => (c.poll w).2) i s.pending }
  | .shutdown => Address.shutdown s
  | .pollNext w => (Mailbox.poll_next s w).2
  | .dropMailbox => (Mailbox.drop s).1

/-- Runs a sequence of MailboxOps from a starting state. -/
def runOps {Request Response Wk : Type}
    (s : MailboxState Request Response Wk)
    (ops : List (MailboxOp Request Wk)) : MailboxState Request Response Wk :=
  ops.foldl stepOp s

/-- The two shared-cell strategies of shared_state.rs: Rc RefCell (lines
17-27, non-atomic, single-scheduler only) and Arc RwLock (lines 29-39,
synchronized, usable across threads). -/
inductive CellKind where
  | nonAtomic
  | synchronized
deriving DecidableEq, Repr

/-- Which cell strategy an Address type alias picks for each of its five
shared-state pieces: the request slot, the response slot, the waker slots,
the pending queue and the cancel flag. -/
structure AddressCellKinds where
  request : CellKind
  response : CellKind
  waker : CellKind
  pending : CellKind
  cancel_flag : CellKind
deriving DecidableEq, Repr

/-- Embeds the SingleThreadedAddress type alias (actor.rs lines 268-286):
every shared piece is instantiated at Rc RefCell. -/
def singleThreadedAddressCells : AddressCellKinds :=
  { request := .nonAtomic, response := .nonAtomic, waker := .nonAtomic,
    pending := .nonAtomic, cancel_flag := .nonAtomic }

/-- Embeds the MultiThreadedAddress type alias (actor.rs lines 287-305): the
request, response and waker slots and the pending queue are instantiated at
Arc RwLock, but the SharedFlag parameter on line 304 is Rc RefCell bool. -/
def multiThreadedAddressCells : AddressCellKinds :=
  { request := .synchronized, response := .synchronized, waker := .synchronized,
    pending := .synchronized, cancel_flag := .nonAtomic }

/-- Concrete channel whose response cell is occupied; used to witness the
ready branch of the poll characterisation. -/
def pollReadyExample : AsyncRequestResponse Nat Nat Nat :=
  { request := none, response := some (.ok 3), waker := some 9 }

/-- Concrete channel whose response cell is empty and whose waker cell is
occupied; used to witness the pending branch of the poll characterisation. -/
def pollPendingExample : AsyncRequestResponse Nat Nat Nat :=
  { request := some 5, response := none, waker := some 9 }

/-- Claim C5, counterexample: resolving a channel twice (with Ok 1 then Ok 2)
without the response being consumed in between leaves the SECOND value in the
response slot, refuting the claim that the first written response value wins. -/
theorem c5_second_write_wins_counterexample :
    ((((AsyncRequestResponse.new 0 :
        AsyncRequestResponse Nat Nat Nat).wake_with_response
          (.ok 1)).1.wake_with_response (.ok 2)).1.response ≠ some (.ok 1)) ∧
    ((((AsyncRequestResponse.new 0 :
        AsyncRequestResponse Nat Nat Nat).wake_with_response
          (.ok 1)).1.wake_with_response (.ok 2)).1.response = some (.ok 2)) := by
  decide

/-- Claim C5, amended: for every channel on which wake_with_response is called
twice without the response being consumed in between, the second resolution is
a no-op on the wake path (the first call emptied the waker cell, so the second
fires no waker), and the LAST written response value wins: afterwards the
response slot holds exactly the second value (the response slot is a single
Option cell, so at most one unresolved response ever exists per channel). -/
theorem c5_resolve_twice_amended {Request Response Wk : Type}
    (c : AsyncRequestResponse Request Response Wk) (r1 r2 : Result Response) :
    ((c.wake_with_response r1).1.wake_with_response r2).2 = none ∧
    ((c.wake_with_response r1).1.wake_with_response r2).1.response = some r2 := by
  exact ⟨rfl, rfl⟩

/-- Claim C6: on every poll of a channel producer-view, the poll destructively
takes the response cell contents; if a response was present the poll returns
Ready with exactly that value (leaving the response cell empty); if absent the
poll stores the current waker into the waker cell, overwriting any previously
stored one, and returns Pending. -/
theorem c6_poll_take_and_check {Request Response Wk : Type}
    (c : AsyncRequestResponse Request Response Wk) (w : Wk) :
    (∀ r, c.response = some r →
      c.poll w = (.ready r, { c with response := none })) ∧
    (c.response = none →
      c.poll w = (.pending, { c with waker := some w })) := by
  constructor
  · intro r h
    simp [AsyncRequestResponse.poll, AsyncRequestResponse.take_response, h]
  · intro h
    cases c
    simp_all [AsyncRequestResponse.poll, AsyncRequestResponse.take_response,
      AsyncRequestResponse.update_waker]

/-- Claim C6, witness: the poll characterisation applied to a channel with an
occupied response cell and to one with an empty response cell. -/
theorem c6_poll_take_and_check_witness :
    AsyncRequestResponse.poll pollReadyExample 7 =
      (.ready (.ok 3), { pollReadyExample with response := none }) ∧
    AsyncRequestResponse.poll pollPendingExample 7 =
      (.pending, { pollPendingExample with waker := some 7 }) :=
  ⟨(c6_poll_take_and_check pollReadyExample 7).1 (.ok 3) rfl,
   (c6_poll_take_and_check pollPendingExample 7).2 rfl⟩

/-- Claim C7: once a channel has been resolved and that response consumed by a
poll (which returns Ready with exactly the resolved value), every subsequent
poll finds the response cell empty and returns Pending — the value is
delivered exactly once and a later poll never yields it again. -/
theorem c7_no_double_delivery {Request Response Wk : Type}
    (c : AsyncRequestResponse Request Response Wk) (r : Result Response)
    (w w2 : Wk) :
    ((c.wake_with_response r).1.poll w).1 = .ready r ∧
    (((c.wake_with_response r).1.poll w).2.poll w2).1 = .pending := by
  exact ⟨rfl, rfl⟩

/-- Claim C8: evaluation of the MultiThreadedAddress type alias. Its request,
response, waker and pending-queue cells are synchronized, but its cancel flag
cell is the non-atomic strategy, refuting the claim that every piece of shared
state of the cross-scheduler variant is backed by a synchronized cell. -/
theorem c8_multithreaded_flag_not_synchronized :
    multiThreadedAddressCells.request = .synchronized ∧
    multiThreadedAddressCells.response = .synchronized ∧
    multiThreadedAddressCells.waker = .synchronized ∧
    multiThreadedAddressCells.pending = .synchronized ∧
    multiThreadedAddressCells.cancel_flag = .nonAtomic ∧
    multiThreadedAddressCells.cancel_flag ≠ .synchronized := by
  decide

/-- The doubling actor handler used in the round-trip scenario: a stateless
synchronous handler returning twice its request. -/
def doubleHandler : Unit → Nat → Unit × Nat := fun a r => (a, 2 * r)

/-- Driver state just after Address::handle(21) enqueued its channel on a
freshly started mailbox: one pending unresolved channel, actor present,
loop not yet exited. -/
def driverStart21 : DriverState Unit Nat Nat Nat :=
  { mailbox := (Address.handle MailboxState.start 21).1,
    actor := some (), finished := false, failed := false, log := [] }

/-- Claim C1: evaluation of the driver loop on the round-trip scenario.
After Address::handle(21) on a started doubling actor, any number of driver
scheduler steps resolves nothing: the resolution log of the loop stays empty and
the response cell of the enqueued channel stays empty, so the awaiting caller
never observes Ok(42).  The cause is that Mailbox::poll_next is an
unimplemented stub returning Pending, so the while-let loop never receives
an item. -/
theorem c1_driver_loop_never_resolves (n w : Nat) :
    (driver_run doubleHandler w n driverStart21).log = [] ∧
    (driver_run doubleHandler w n driverStart21).mailbox.pending.map
      AsyncRequestResponse.response = [none] := by
  have hstep : ∀ (w2 : Nat) (ds : DriverState Unit Nat Nat Nat),
      driver_step doubleHandler w2 ds = ds := by
    intro w2 ds
    unfold driver_step
    split
    · rfl
    · rfl
  have hrun : ∀ (m : Nat) (ds : DriverState Unit Nat Nat Nat),
      driver_run doubleHandler w m ds = ds := by
    intro m
    induction m with
    | zero => intro ds; rfl
    | succ k ih =>
      intro ds
      show driver_run doubleHandler w k (driver_step doubleHandler w ds) = ds
      rw [hstep w ds]
      exact ih ds
  rw [hrun n driverStart21]
  exact ⟨rfl, rfl⟩

/-- Mailbox state with the cancel flag set and one pending unresolved
channel: the situation in which poll_next is claimed to drain and end the
stream. -/
def cancelledState : MailboxState Nat Nat Nat :=
  { pending := [AsyncRequestResponse.new 42], mailbox_waker := none,
    cancel_flag := true }

/-- Claim C2: evaluation of Mailbox::poll_next at a state whose cancel flag
is set and whose pending queue holds one channel.  The stub returns Pending,
not the claimed end-of-stream Ready(None), and leaves the queue undrained
with the channel unresolved. -/
theorem c2_poll_next_ignores_cancel_flag :
    cancelledState.cancel_flag = true ∧
    (Mailbox.poll_next cancelledState 0).1 = .pending ∧
    (Mailbox.poll_next cancelledState 0).1 ≠ .ready none ∧
    (Mailbox.poll_next cancelledState 0).2.pending.map
      AsyncRequestResponse.response = [none] := by
  decide

/-- Mailbox state with the cancel flag clear and one pending channel: the
situation in which poll_next is claimed to pop and yield the oldest entry. -/
def uncancelledState : MailboxState Nat Nat Nat :=
  { pending := [AsyncRequestResponse.new 7], mailbox_waker := none,
    cancel_flag := false }

/-- Claim C3: evaluation of Mailbox::poll_next at a state whose cancel flag
is clear and whose pending queue holds one channel.  The stub returns
Pending instead of popping and yielding the oldest entry, and the queue is
left untouched, so no FIFO yielding of enqueued items ever happens. -/
theorem c3_poll_next_never_pops :
    uncancelledState.cancel_flag = false ∧
    uncancelledState.pending ≠ [] ∧
    (Mailbox.poll_next uncancelledState 0).1 = .pending ∧
    (Mailbox.poll_next uncancelledState 0).1 ≠
      .ready (some (AsyncRequestResponse.new 7)) ∧
    (Mailbox.poll_next uncancelledState 0).2 = uncancelledState := by
  decide

/-- Claim C4: dropping a Mailbox with K unresolved pending channels empties
the pending queue and resolves exactly K channels, every one of them with
Err(Abort), so no awaiting caller is left hanging. -/
theorem c4_drop_resolves_all_abort (s : MailboxState Nat Nat Nat) :
    (Mailbox.drop s).1.pending = [] ∧
    (Mailbox.drop s).2.length = s.pending.length ∧
    ∀ c ∈ (Mailbox.drop s).2, c.response = some (.err .abort) := by
  refine ⟨rfl, by simp [Mailbox.drop, Mailbox.stop_all_pending_with_error], ?_⟩
  intro c hc
  simp [Mailbox.drop, Mailbox.stop_all_pending_with_error] at hc
  obtain ⟨a, _, rfl⟩ := hc
  rfl

/-- Mailbox state holding two unresolved pending channels, used to witness
the drop-drains-with-Abort theorem. -/
def dropWitnessState : MailboxState Nat Nat Nat :=
  { pending := [AsyncRequestResponse.new 1, AsyncRequestResponse.new 2],
    mailbox_waker := none, cancel_flag := false }

/-- Claim C4, witness: dropping a Mailbox holding two pending channels
empties the queue, resolves two channels, and the first resolved channel
carries Err(Abort). -/
theorem c4_drop_resolves_all_abort_witness :
    (Mailbox.drop dropWitnessState).1.pending = [] ∧
    (Mailbox.drop dropWitnessState).2.length = 2 ∧
    ((AsyncRequestResponse.new 1 :
        AsyncRequestResponse Nat Nat Nat).wake_with_response
          (.err .abort)).1.response = some (.err .abort) := by
  refine ⟨(c4_drop_resolves_all_abort dropWitnessState).1, ?_, ?_⟩
  · exact ((c4_drop_resolves_all_abort dropWitnessState).2.1).trans (by decide)
  · exact (c4_drop_resolves_all_abort dropWitnessState).2.2 _ (by decide)

/-- Membership after modifyAt: an element of the modified list was either
already in the original list or is the image under f of some original
element. -/
theorem mem_modifyAt {α : Type} (f : α → α) :
    ∀ (i : Nat) (l : List α) (c : α),
      c ∈ modifyAt f i l → c ∈ l ∨ ∃ a ∈ l, c = f a := by
  intro i l
  induction l generalizing i with
  | nil =>
    intro c hc
    simp [modifyAt] at hc
  | cons a as ih =>
    intro c hc
    cases i with
    | zero =>
      simp only [modifyAt, List.mem_cons] at hc
      rcases hc with hc | hc
      · exact Or.inr ⟨a, by simp, hc⟩
      · exact Or.inl (List.mem_cons_of_mem a hc)
    | succ n =>
      simp only [modifyAt, List.mem_cons] at hc
      rcases hc with hc | hc
      · exact Or.inl (by simp [hc])
      · rcases ih n c hc with h2 | ⟨b, hb, hbc⟩
        · exact Or.inl (List.mem_cons_of_mem a h2)
        · exact Or.inr ⟨b, List.mem_cons_of_mem a hb, hbc⟩

/-- The queued-channel invariant: every channel sitting in the pending queue
still holds its request (Some) and is unresolved (response None). -/
def queuedInv {Request Response Wk : Type}
    (s : MailboxState Request Response Wk) : Prop :=
  ∀ c ∈ s.pending, c.request.isSome = true ∧ c.response = none

/-- Each shared-state operation of the source preserves the queued-channel
invariant: handle enqueues a fresh channel (request Some, response None), a
caller polling a queued unresolved channel only touches its waker cell,
shutdown and the stubbed poll_next leave the queue alone, and drop empties
the queue. -/
theorem queuedInv_stepOp {Request Response Wk : Type}
    (s : MailboxState Request Response Wk) (op : MailboxOp Request Wk)
    (h : queuedInv s) : queuedInv (stepOp s op) := by
  cases op with
  | handle r =>
    intro c hc
    simp only [stepOp, Address.handle, List.mem_append, List.mem_singleton] at hc
    rcases hc with hc | hc
    · exact h c hc
    · subst hc
      exact ⟨rfl, rfl⟩
  | callerPoll i w =>
    intro c hc
    simp only [stepOp] at hc
    rcases mem_modifyAt _ i s.pending c hc with hc | ⟨a, ha, hca⟩
    · exact h c hc
    · obtain ⟨hreq, hresp⟩ := h a ha
      subst hca
      cases a with
      | mk req resp wk =>
        simp only at hresp
        subst hresp
        simp_all [AsyncRequestResponse.poll, AsyncRequestResponse.take_response,
          AsyncRequestResponse.update_waker]
  | shutdown =>
    intro c hc
    exact h c hc
  | pollNext w =>
    intro c hc
    exact h c hc
  | dropMailbox =>
    intro c hc
    simp [stepOp, Mailbox.drop, Mailbox.stop_all_pending_with_error] at hc

/-- Running any sequence of shared-state operations preserves the
queued-channel invariant. -/
theorem queuedInv_runOps {Request Response Wk : Type}
    (ops : List (MailboxOp Request Wk)) (s : MailboxState Request Response Wk)
    (h : queuedInv s) : queuedInv (runOps s ops) := by
  induction ops generalizing s with
  | nil => exact h
  | cons op ops ih => exact ih _ (queuedInv_stepOp s op h)

/-- Claim C9: in every state reachable from a freshly started mailbox by the
shared-state operations of the source, every channel in the pending queue holds
Some(request) and an empty response slot, and take_request on it yields
Some — so the unwrap in the driver loop of take_request on a dequeued channel
cannot fail. -/
theorem c9_queued_channel_invariant (ops : List (MailboxOp Nat Nat))
    (c : AsyncRequestResponse Nat Nat Nat)
    (hc : c ∈ (runOps MailboxState.start ops).pending) :
    c.request.isSome = true ∧ c.response = none ∧
      c.take_request.1.isSome = true := by
  have h := queuedInv_runOps ops MailboxState.start
    (by intro d hd; simp [MailboxState.start] at hd) c hc
  exact ⟨h.1, h.2, h.1⟩

/-- Claim C9, witness: after a single handle(5) enqueue, the queued channel
holds Some(5), no response, and take_request yields Some. -/
theorem c9_queued_channel_invariant_witness :
    (AsyncRequestResponse.new 5 :
      AsyncRequestResponse Nat Nat Nat).request.isSome = true ∧
    (AsyncRequestResponse.new 5 :
      AsyncRequestResponse Nat Nat Nat).response = none ∧
    (AsyncRequestResponse.new 5 :
      AsyncRequestResponse Nat Nat Nat).take_request.1.isSome = true :=
  c9_queued_channel_invariant [.handle 5] _ (by decide)

/-- Claim C10: Mailbox::drop resolves the remaining queued channels with
Err(Abort) without consulting the cancel flag: even when the flag is already
set (shutdown was requested), every channel resolved by the drop carries
Err(Abort) and not Err(Shutdown). -/
theorem c10_drop_unconditional_abort (s : MailboxState Nat Nat Nat)
    (_hflag : s.cancel_flag = true) :
    ∀ c ∈ (Mailbox.drop s).2,
      c.response = some (.err .abort) ∧ c.response ≠ some (.err .shutdown) := by
  intro c hc
  simp [Mailbox.drop, Mailbox.stop_all_pending_with_error] at hc
  obtain ⟨a, _, rfl⟩ := hc
  refine ⟨rfl, ?_⟩
  intro hbad
  simp [AsyncRequestResponse.wake_with_response] at hbad

/-- Mailbox state in which shutdown has set the cancel flag while one
channel is still pending, and the Mailbox is then dropped. -/
def shutdownThenDropState : MailboxState Nat Nat Nat :=
  { pending := [AsyncRequestResponse.new 3], mailbox_waker := none,
    cancel_flag := true }

/-- Claim C10, witness: dropping a Mailbox whose cancel flag is set resolves
its pending channel with Err(Abort), not Err(Shutdown). -/
theorem c10_drop_unconditional_abort_witness :
    ((AsyncRequestResponse.new 3 :
        AsyncRequestResponse Nat Nat Nat).wake_with_response
          (.err .abort)).1.response = some (.err .abort) ∧
    ((AsyncRequestResponse.new 3 :
        AsyncRequestResponse Nat Nat Nat).wake_with_response
          (.err .abort)).1.response ≠ some (.err .shutdown) :=
  c10_drop_unconditional_abort shutdownThenDropState rfl _ (by decide)

end ActorSpec
